import Mathlib

/-!
Verification of the advaitzz dork-generation tool (src/advaitzz/advaitzz.py and
src/advaitzz/advaitzz_combined.py) against its natural-language specification.

The Python code is shallowly embedded: dictionaries become association lists,
the history file becomes an explicit `HistoryFile` state (a well-formed JSON
array of entries, or malformed/unreadable content), file writes become returned
`ExportOutput` values, and raised exceptions become `Except` errors.  The clock
is passed explicitly (`ts` arguments).  Python string helpers (`str.strip`,
`str.lower`, `str.split`, `str.format`) are modelled over `List Char` for the
ASCII range exercised by the program.

Definitions named `Combined.*` embed src/advaitzz/advaitzz_combined.py; the
unprefixed ones embed src/advaitzz/advaitzz.py.
-/

/-- Python `str.strip()` whitespace test, for the ASCII whitespace characters. -/
def isPySpace (c : Char) : Bool :=
  c == ' ' || c == '\t' || c == '\n' || c == '\r' || c == '\x0b' || c == '\x0c'

/-- Model of Python `str.strip()`: drop leading and trailing whitespace. -/
def pyStrip (s : String) : String :=
  String.mk (((s.data.dropWhile isPySpace).reverse.dropWhile isPySpace).reverse)

/-- Model of Python `str.lower()` (ASCII case folding). -/
def pyLower (s : String) : String :=
  String.mk (s.data.map Char.toLower)

/-- Replace every occurrence of the placeholder `{d}` by `dom`; helper for
`formatD`. -/
def substD (dom : List Char) : List Char → List Char
  | '\x7b' :: 'd' :: '\x7d' :: rest => dom ++ substD dom rest
  | c :: rest => c :: substD dom rest
  | [] => []

/-- Model of Python `tpl.format(d=domain)` for templates whose only
replacement field is `{d}` (all templates in the catalog are of this shape). -/
def formatD (tpl domain : String) : String :=
  String.mk (substD domain.data tpl.data)

/-- A Python dict with string keys and string values, as an ordered
association list (Python 3.7+ dicts preserve insertion order). -/
abbrev Record : Type := List (String × String)

/-- Model of Python `r.get(k)` / `r[k]` lookup on a `Record`. -/
def dictGet (r : Record) (k : String) : Option String :=
  (r.find? (fun kv => kv.1 == k)).map Prod.snd

/-- The `TemplateManager` class state: its `templates` dict, mapping category
names to ordered template lists (advaitzz.py lines 51-76,
advaitzz_combined.py lines 54-92). -/
structure TemplateManager where
  templates : List (String × List String)
deriving DecidableEq

/-- `TemplateManager.list_categories` (advaitzz.py line 72): the dict keys in
insertion order. -/
def TemplateManager.list_categories (tm : TemplateManager) : List String :=
  tm.templates.map Prod.fst

/-- `TemplateManager.get_templates` (advaitzz.py line 75):
`self.templates.get(cat, [])`. -/
def TemplateManager.get_templates (tm : TemplateManager) (cat : String) : List String :=
  match tm.templates.find? (fun kv => kv.1 == cat) with
  | some kv => kv.2
  | none => []

/-- `TemplateManager.add_category` (advaitzz_combined.py lines 78-80):
`if category not in self.templates: self.templates[category] = []`. -/
def TemplateManager.add_category (tm : TemplateManager) (cat : String) : TemplateManager :=
  if (TemplateManager.list_categories tm).contains cat then tm
  else ⟨tm.templates ++ [(cat, [])]⟩

/-- `TemplateManager.remove_category` (advaitzz_combined.py lines 82-84):
`if category in self.templates: del self.templates[category]`. -/
def TemplateManager.remove_category (tm : TemplateManager) (cat : String) : TemplateManager :=
  if (TemplateManager.list_categories tm).contains cat then
    ⟨tm.templates.filter (fun kv => !(kv.1 == cat))⟩
  else tm

/-- `TemplateManager.add_template` (advaitzz_combined.py lines 86-88):
`if category in self.templates: self.templates[category].append(tpl)`. -/
def TemplateManager.add_template (tm : TemplateManager) (cat tpl : String) : TemplateManager :=
  if (TemplateManager.list_categories tm).contains cat then
    ⟨tm.templates.map (fun kv => if kv.1 == cat then (kv.1, kv.2 ++ [tpl]) else kv)⟩
  else tm

/-- `TemplateManager.remove_template` (advaitzz_combined.py lines 90-92):
`if category in self.templates and 0 <= idx < len(self.templates[category]):
del self.templates[category][idx]`.  The Python index is an `int`, so it is
modelled as `Int`. -/
def TemplateManager.remove_template (tm : TemplateManager) (cat : String) (idx : Int) :
    TemplateManager :=
  if (TemplateManager.list_categories tm).contains cat ∧
      0 ≤ idx ∧ idx < ((TemplateManager.get_templates tm cat).length : Int) then
    ⟨tm.templates.map (fun kv =>
      if kv.1 == cat then (kv.1, kv.2.eraseIdx idx.toNat) else kv)⟩
  else tm

/-- The default catalog built by `TemplateManager.__init__` in advaitzz.py
(lines 52-70). -/
def defaultTM : TemplateManager :=
  ⟨[("Login Pages",
      ["site:{d} inurl:login",
       "site:{d} intitle:login",
       "site:{d} inurl:signin"]),
    ("Documents",
      ["site:{d} ext:pdf",
       "site:{d} ext:docx",
       "site:{d} ext:xlsx"]),
    ("Index Of",
      ["site:{d} intitle:index.of"]),
    ("Subdomains",
      ["site:*.{d} -www.{d}"])]⟩

/-- The default catalog built by `TemplateManager.__init__` in
advaitzz_combined.py (lines 55-70). -/
def combinedTM : TemplateManager :=
  ⟨[("Login Pages",
      ["site:{d} inurl:login",
       "site:{d} intitle:login",
       "site:{d} inurl:signin"]),
    ("Documents",
      ["site:{d} ext:pdf",
       "site:{d} ext:docx",
       "site:{d} ext:xlsx"]),
    ("Index Of",
      ["site:{d} intitle:\"index of\""])]⟩

/-- One generated dork record: `{"domain": domain, "category": c,
"dork": tpl.format(d=domain)}` (advaitzz.py line 182). -/
def dorkRecord (domain cat tpl : String) : Record :=
  [("domain", domain), ("category", cat), ("dork", formatD tpl domain)]

/-- Error raised by the expansion pipeline; the specification names the
rejection of an empty/blank domain `InvalidInputError` (the CLI/GUI front
ends abort at advaitzz.py lines 161-164 and 266-269). -/
inductive DorkError where
  | invalidInputError
deriving DecidableEq

/-- The generation loop of advaitzz.py lines 179-182 (identically
advaitzz_combined.py lines 235-238): `results = []`, then for each selected
category append one record per stored template. -/
def expandLoop (tm : TemplateManager) (domain : String) (cats : List String) : List Record :=
  cats.foldl
    (fun results c =>
      results ++ (TemplateManager.get_templates tm c).map (fun tpl => dorkRecord domain c tpl))
    []

/-- The dork-expansion pipeline: the front end strips the domain and rejects a
blank one (advaitzz.py lines 161-164), then runs the generation loop
(lines 179-182) on the stripped domain. -/
def expand (tm : TemplateManager) (domain : String) (cats : List String) :
    Except DorkError (List Record) :=
  let d := pyStrip domain
  if d = "" then Except.error DorkError.invalidInputError
  else Except.ok (expandLoop tm d cats)

/-- A history entry written by `HistoryDB.record_run` in advaitzz.py
(lines 101-109): timestamp, domains, categories, note, count.  The timestamp
is the clock value `time.time()` available at the call, passed in explicitly
and modelled as a `Nat`. -/
structure Entry where
  timestamp : Nat
  domains : List String
  categories : List String
  note : String
  count : Nat
deriving DecidableEq

/-- A history entry written by `HistoryDB.record_run` in advaitzz_combined.py
(lines 42-47): domains, categories, extra, count — no timestamp field. -/
structure Combined.Entry where
  domains : List String
  categories : List String
  extra : String
  count : Nat
deriving DecidableEq

/-- The content of the history backing file: either a well-formed JSON array
of entries, or content that is unreadable / fails to parse. -/
inductive HistoryFile (α : Type) where
  | wellFormed (entries : List α)
  | malformed
deriving DecidableEq

/-- `HistoryDB.__init__` (advaitzz.py lines 84-87): when the file is absent it
writes an empty array, so a fresh store holds `[]`. -/
def HistoryDB.fresh : HistoryFile Entry :=
  HistoryFile.wellFormed []

/-- `HistoryDB._read` (advaitzz.py lines 89-93): parse the file, returning
`[]` on any failure (unreadable file or malformed JSON). -/
def HistoryDB.readStore (st : HistoryFile Entry) : List Entry :=
  match st with
  | HistoryFile.wellFormed entries => entries
  | HistoryFile.malformed => []

/-- `HistoryDB._write` (advaitzz.py lines 95-99): serialize the list back to
the file, which then holds exactly that array. -/
def HistoryDB.writeStore (entries : List Entry) : HistoryFile Entry :=
  HistoryFile.wellFormed entries

/-- `HistoryDB.record_run` (advaitzz.py lines 101-110): read, append one entry
stamped with the current time, rewrite. -/
def HistoryDB.record_run (st : HistoryFile Entry) (ts : Nat)
    (domains categories : List String) (note : String) (count : Nat) : HistoryFile Entry :=
  HistoryDB.writeStore (HistoryDB.readStore st ++ [⟨ts, domains, categories, note, count⟩])

/-- `HistoryDB.list_runs` (advaitzz.py lines 112-113): `return self._read()`. -/
def HistoryDB.list_runs (st : HistoryFile Entry) : List Entry :=
  HistoryDB.readStore st

/-- `HistoryDB.__init__` (advaitzz_combined.py lines 35-38): a fresh store
holds `[]`. -/
def Combined.HistoryDB.fresh : HistoryFile Combined.Entry :=
  HistoryFile.wellFormed []

/-- `HistoryDB.record_run` (advaitzz_combined.py lines 40-48):
`json.loads` with no exception handler (malformed content raises
`json.JSONDecodeError`), then append an entry with no timestamp and rewrite.
The clock value `ts` available at the call is passed in but — matching the
source — never stored. -/
def Combined.HistoryDB.record_run (st : HistoryFile Combined.Entry) (ts : Nat)
    (domains categories : List String) (extra : String) (count : Nat) :
    Except String (HistoryFile Combined.Entry) :=
  match st with
  | HistoryFile.malformed => Except.error "JSONDecodeError"
  | HistoryFile.wellFormed data =>
    Except.ok (HistoryFile.wellFormed (data ++ [⟨domains, categories, extra, count⟩]))

/-- `HistoryDB.list_runs` (advaitzz_combined.py lines 50-51):
`json.loads(self.file.read_text())` with no exception handler. -/
def Combined.HistoryDB.list_runs (st : HistoryFile Combined.Entry) :
    Except String (List Combined.Entry) :=
  match st with
  | HistoryFile.malformed => Except.error "JSONDecodeError"
  | HistoryFile.wellFormed entries => Except.ok entries

/-- `filename.split(".")[-1].lower()` (advaitzz.py line 119): the lowercased
chunk after the last dot; when the name holds no dot, `split` returns the
whole name as its only chunk. -/
def extOf (filename : String) : String :=
  pyLower (String.mk ((filename.data.splitOn '.').getLastD []))

/-- The single file written by a successful export, by format. -/
inductive ExportOutput where
  | txtFile (content : String)
  | csvFile (rows : List (List String)) (err : Option String)
  | jsonFile (records : List Record)
  | excelFile (records : List Record)
deriving DecidableEq

/-- Error raised by `export_results` in advaitzz.py (line 143):
`ValueError("Unsupported export format: " + fmt)`; the specification names it
`UnsupportedFormatError`. -/
inductive ExportError where
  | unsupportedFormat (ext : String)
deriving DecidableEq

/-- The message carried by an `ExportError` (advaitzz.py line 143). -/
def ExportError.message : ExportError → String
  | ExportError.unsupportedFormat ext => "Unsupported export format: " ++ ext

/-- CSV fieldnames in advaitzz.py line 125:
`list(results[0].keys()) if results else ["dork"]`. -/
def csvHeader (results : List Record) : List String :=
  match results with
  | [] => ["dork"]
  | r :: _ => r.map Prod.fst

/-- `csv.DictWriter._dict_to_list` with the default `extrasaction="raise"` and
`restval=None`: a row dict holding a key outside `fieldnames` raises
`ValueError`; otherwise each fieldname is looked up, a missing key yielding
the empty cell. -/
def dictToRow (fieldnames : List String) (r : Record) : Except String (List String) :=
  if r.any (fun kv => !(fieldnames.contains kv.1)) then
    Except.error "ValueError: dict contains fields not in fieldnames"
  else
    Except.ok (fieldnames.map (fun k => (dictGet r k).getD ""))

/-- Writing the data rows one at a time (advaitzz.py lines 129-130): rows
written so far, and the error aborting the loop, if any. -/
def writeRows (fieldnames : List String) : List Record → List (List String) × Option String
  | [] => ([], none)
  | r :: rs =>
    match dictToRow fieldnames r with
    | Except.error e => ([], some e)
    | Except.ok row =>
      let rest := writeRows fieldnames rs
      (row :: rest.1, rest.2)

/-- The csv branch of `export_results` in advaitzz.py (lines 124-131): the
header row, then one data row per record. -/
def csvExport (results : List Record) : List (List String) × Option String :=
  let keys := csvHeader results
  let rows := writeRows keys results
  (keys :: rows.1, rows.2)

/-- CSV fieldnames in advaitzz_combined.py line 116:
`results[0].keys() if results else []` — an empty header for an empty list. -/
def Combined.csvHeader (results : List Record) : List String :=
  match results with
  | [] => []
  | r :: _ => r.map Prod.fst

/-- The csv branch of `export_results` in advaitzz_combined.py
(lines 114-120). -/
def Combined.csvExport (results : List Record) : List (List String) × Option String :=
  let keys := Combined.csvHeader results
  let rows := writeRows keys results
  (keys :: rows.1, rows.2)

/-- `export_results` (advaitzz.py lines 118-143): pick the format from the
destination name's extension and write one file, or raise for an unsupported
extension.  The xlsx/xls branch is modelled with pandas available (its absence
raises a distinct `RuntimeError`, not the unsupported-format error). -/
def export_results (results : List Record) (filename : String) :
    Except ExportError ExportOutput :=
  let fmt := extOf filename
  if fmt = "txt" then
    Except.ok (ExportOutput.txtFile
      (String.intercalate "\n" (results.map (fun r => (dictGet r "dork").getD ""))))
  else if fmt = "csv" then
    Except.ok (ExportOutput.csvFile (csvExport results).1 (csvExport results).2)
  else if fmt = "json" then
    Except.ok (ExportOutput.jsonFile results)
  else if fmt = "xlsx" ∨ fmt = "xls" then
    Except.ok (ExportOutput.excelFile results)
  else
    Except.error (ExportError.unsupportedFormat fmt)

/-- The txt branch of the combined `export_results` writes `r['dork'] + "\n"`
per record (advaitzz_combined.py lines 110-113); `r['dork']` raises `KeyError`
when the key is absent. -/
def Combined.dorkLines (results : List Record) : Except String (List String) :=
  results.mapM (fun r =>
    match dictGet r "dork" with
    | some v => Except.ok v
    | none => Except.error "KeyError: dork")

/-- `export_results` (advaitzz_combined.py lines 108-127): dispatch on the
caller-supplied `fmt`, lowercased.  There is no `else` branch: an unsupported
format neither raises nor writes, so the function returns normally with no
output (`Except.ok none`). -/
def Combined.export_results (results : List Record) (filename fmt0 : String) :
    Except String (Option ExportOutput) :=
  let fmt := pyLower fmt0
  if fmt = "txt" then
    match Combined.dorkLines results with
    | Except.error e => Except.error e
    | Except.ok ds =>
      Except.ok (some (ExportOutput.txtFile (String.join (ds.map (fun s => s ++ "\n")))))
  else if fmt = "csv" then
    Except.ok (some (ExportOutput.csvFile (Combined.csvExport results).1
      (Combined.csvExport results).2))
  else if fmt = "json" then
    Except.ok (some (ExportOutput.jsonFile results))
  else if fmt = "xlsx" then
    Except.ok (some (ExportOutput.excelFile results))
  else
    Except.ok none

/-- The three records of the specification's example scenario:
`expand("example.com", ["Login Pages"])`. -/
def sampleRecords : List Record :=
  [[("domain", "example.com"), ("category", "Login Pages"),
    ("dork", "site:example.com inurl:login")],
   [("domain", "example.com"), ("category", "Login Pages"),
    ("dork", "site:example.com intitle:login")],
   [("domain", "example.com"), ("category", "Login Pages"),
    ("dork", "site:example.com inurl:signin")]]

/-! ## Helper lemmas -/

/-- Stripping yields the empty string exactly when every character of the
string is whitespace (in particular for the empty string). -/
theorem pyStrip_eq_empty_iff (s : String) :
    pyStrip s = "" ↔ s.data.all isPySpace = true := by
  unfold pyStrip
  constructor
  · intro h
    have h2 : ((s.data.dropWhile isPySpace).reverse.dropWhile isPySpace).reverse = [] :=
      congrArg String.data h
    rw [List.reverse_eq_nil_iff, List.dropWhile_eq_nil_iff] at h2
    rw [List.all_eq_true]
    intro x hx
    have hx2 : x ∈ s.data.takeWhile isPySpace ++ s.data.dropWhile isPySpace := by
      rw [List.takeWhile_append_dropWhile]; exact hx
    rcases List.mem_append.mp hx2 with h3 | h3
    · exact List.mem_takeWhile_imp h3
    · exact h2 x (List.mem_reverse.mpr h3)
  · intro h
    have hd : s.data.dropWhile isPySpace = [] :=
      List.dropWhile_eq_nil_iff.mpr (fun x hx => List.all_eq_true.mp h x hx)
    rw [hd]
    rfl

/-- The accumulator-passing generation loop equals the flattened map over the
selected categories. -/
theorem expandLoop_eq_flatten (tm : TemplateManager) (d : String) (cats : List String) :
    expandLoop tm d cats =
      (cats.map (fun c =>
        (TemplateManager.get_templates tm c).map (fun tpl => dorkRecord d c tpl))).flatten := by
  have key : ∀ (l : List String) (acc : List Record),
      l.foldl (fun results c =>
        results ++ (TemplateManager.get_templates tm c).map (fun tpl => dorkRecord d c tpl)) acc
      = acc ++ (l.map (fun c =>
          (TemplateManager.get_templates tm c).map (fun tpl => dorkRecord d c tpl))).flatten := by
    intro l
    induction l with
    | nil => intro acc; simp
    | cons x xs ih => intro acc; simp [ih, List.append_assoc]
  simpa [expandLoop] using key cats []

/-! ## Claim theorems -/

/-- C1: the dork expansion fails with `InvalidInputError` for every domain
that is empty or consists only of whitespace, and succeeds (never raising
this error) for every non-blank domain. -/
theorem expand_blank_domain (tm : TemplateManager) (d : String) (cats : List String) :
    (d.data.all isPySpace = true →
      expand tm d cats = Except.error DorkError.invalidInputError) ∧
    (d.data.all isPySpace = false →
      ∃ rs, expand tm d cats = Except.ok rs) := by
  constructor
  · intro h
    have hs : pyStrip d = "" := (pyStrip_eq_empty_iff d).mpr h
    simp [expand, hs]
  · intro h
    have hs : pyStrip d ≠ "" := by
      intro hc
      rw [(pyStrip_eq_empty_iff d).mp hc] at h
      cases h
    exact ⟨expandLoop tm (pyStrip d) cats, by simp [expand, hs]⟩

/-- Witness for C1 at the spec's own examples. -/
theorem expand_blank_domain_wit :
    expand defaultTM "" ["Login Pages"] = Except.error DorkError.invalidInputError ∧
    expand defaultTM "   " ["Login Pages"] = Except.error DorkError.invalidInputError ∧
    (∃ rs, expand defaultTM "example.com" ["Login Pages"] = Except.ok rs) :=
  ⟨(expand_blank_domain defaultTM "" ["Login Pages"]).1 (by decide),
   (expand_blank_domain defaultTM "   " ["Login Pages"]).1 (by decide),
   (expand_blank_domain defaultTM "example.com" ["Login Pages"]).2 (by decide)⟩

/-- C3: for a non-blank domain the expansion succeeds, produces the records
in caller-supplied category order with each category's templates in stored
order, and its length is the sum of the selected categories' template
counts. -/
theorem expand_length_order (tm : TemplateManager) (d : String) (cats : List String)
    (h : pyStrip d ≠ "") :
    expand tm d cats = Except.ok
      ((cats.map (fun c =>
        (TemplateManager.get_templates tm c).map
          (fun tpl => dorkRecord (pyStrip d) c tpl))).flatten) ∧
    ∃ rs, expand tm d cats = Except.ok rs ∧
      rs.length = (cats.map (fun c => (TemplateManager.get_templates tm c).length)).sum := by
  have he : expand tm d cats = Except.ok (expandLoop tm (pyStrip d) cats) := by
    simp [expand, h]
  refine ⟨?_, expandLoop tm (pyStrip d) cats, he, ?_⟩
  · rw [he, expandLoop_eq_flatten]
  · rw [expandLoop_eq_flatten, List.length_flatten, List.map_map]
    have hfun : (List.length ∘ fun c =>
        (TemplateManager.get_templates tm c).map (fun tpl => dorkRecord (pyStrip d) c tpl))
        = fun c => (TemplateManager.get_templates tm c).length := by
      funext c
      simp [Function.comp]
    rw [hfun]

/-- Witness for C3 at the spec's example scenario. -/
theorem expand_length_order_wit :
    expand defaultTM "example.com" ["Login Pages"] = Except.ok
      (((["Login Pages"] : List String).map (fun c =>
        (TemplateManager.get_templates defaultTM c).map
          (fun tpl => dorkRecord (pyStrip "example.com") c tpl))).flatten) :=
  (expand_length_order defaultTM "example.com" ["Login Pages"] (by decide)).1

/-- C9: the expansion is deterministic — two runs over the same catalog state
with the same domain and the same category selection produce the same record
sequence. -/
theorem expand_deterministic (tm1 tm2 : TemplateManager) (d1 d2 : String)
    (cats1 cats2 : List String) (htm : tm1 = tm2) (hd : d1 = d2) (hc : cats1 = cats2) :
    expand tm1 d1 cats1 = expand tm2 d2 cats2 := by
  rw [htm, hd, hc]

/-- Witness for C9 at a concrete repeated run. -/
theorem expand_deterministic_wit :
    expand defaultTM "example.com" ["Documents"] = expand defaultTM "example.com" ["Documents"] :=
  expand_deterministic defaultTM defaultTM "example.com" "example.com"
    ["Documents"] ["Documents"] rfl rfl rfl

/-- C6: catalog mutations are no-op-safe — adding a present category,
removing an absent category, and removing a template at an out-of-range
index each leave the catalog unchanged, and each of these calls is
idempotent. -/
theorem catalog_noop_safety (tm : TemplateManager) (cat : String) (idx : Int) :
    ((TemplateManager.list_categories tm).contains cat = true →
      TemplateManager.add_category tm cat = tm ∧
      TemplateManager.add_category (TemplateManager.add_category tm cat) cat =
        TemplateManager.add_category tm cat) ∧
    ((TemplateManager.list_categories tm).contains cat = false →
      TemplateManager.remove_category tm cat = tm ∧
      TemplateManager.remove_category (TemplateManager.remove_category tm cat) cat =
        TemplateManager.remove_category tm cat) ∧
    (¬(0 ≤ idx ∧ idx < ((TemplateManager.get_templates tm cat).length : Int)) →
      TemplateManager.remove_template tm cat idx = tm ∧
      TemplateManager.remove_template (TemplateManager.remove_template tm cat idx) cat idx =
        TemplateManager.remove_template tm cat idx) := by
  refine ⟨fun h => ?_, fun h => ?_, fun h => ?_⟩
  · have hm : cat ∈ TemplateManager.list_categories tm := by simpa using h
    have h1 : TemplateManager.add_category tm cat = tm := by
      simp [TemplateManager.add_category, hm]
    exact ⟨h1, by rw [h1]; exact h1⟩
  · have hm : cat ∉ TemplateManager.list_categories tm := by simpa using h
    have h1 : TemplateManager.remove_category tm cat = tm := by
      simp [TemplateManager.remove_category, hm]
    exact ⟨h1, by rw [h1]; exact h1⟩
  · have h1 : TemplateManager.remove_template tm cat idx = tm := by
      unfold TemplateManager.remove_template
      rw [if_neg]
      intro hcond
      exact h hcond.2
    exact ⟨h1, by rw [h1]; exact h1⟩

/-- Witness for C6 on the combined script's default catalog. -/
theorem catalog_noop_safety_wit :
    TemplateManager.add_category combinedTM "Login Pages" = combinedTM ∧
    TemplateManager.remove_category combinedTM "Nope" = combinedTM ∧
    TemplateManager.remove_template combinedTM "Login Pages" 99 = combinedTM :=
  ⟨((catalog_noop_safety combinedTM "Login Pages" 99).1 (by decide)).1,
   ((catalog_noop_safety combinedTM "Nope" 99).2.1 (by decide)).1,
   ((catalog_noop_safety combinedTM "Login Pages" 99).2.2 (by decide)).1⟩

/-- A key absent from an association list makes `find?` miss. -/
theorem find_key_eq_none {l : List (String × List String)} {c : String}
    (h : c ∉ l.map Prod.fst) : l.find? (fun kv => kv.1 == c) = none := by
  rw [List.find?_eq_none]
  intro kv hkv hbeq
  have hc : kv.1 = c := by simpa using hbeq
  exact h (hc ▸ List.mem_map_of_mem Prod.fst hkv)

/-- With distinct keys, `find?` returns exactly the stored pair. -/
theorem find_key_eq_some {l : List (String × List String)} {c : String} {ts : List String}
    (hnd : (l.map Prod.fst).Nodup) (hmem : (c, ts) ∈ l) :
    l.find? (fun kv => kv.1 == c) = some (c, ts) := by
  induction l with
  | nil => cases hmem
  | cons kv rest ih =>
    rw [List.map_cons, List.nodup_cons] at hnd
    rcases List.mem_cons.mp hmem with heq | hmem2
    · rw [← heq]
      simp [List.find?]
    · have hne : (kv.1 == c) = false := by
        rw [beq_eq_false_iff_ne]
        intro hc
        exact hnd.1 (hc ▸ List.mem_map_of_mem Prod.fst hmem2)
      simp only [List.find?, hne]
      exact ih hnd.2 hmem2

/-- C7: `get_templates` returns an empty sequence (and no error) for a
category name absent from the catalog, and returns the stored template list,
in stored order, for a present category. -/
theorem get_templates_lookup (tm : TemplateManager) (cat : String) :
    (cat ∉ TemplateManager.list_categories tm → TemplateManager.get_templates tm cat = []) ∧
    (∀ ts, (TemplateManager.list_categories tm).Nodup → (cat, ts) ∈ tm.templates →
      TemplateManager.get_templates tm cat = ts) := by
  constructor
  · intro h
    unfold TemplateManager.get_templates
    rw [find_key_eq_none h]
  · intro ts hnd hmem
    unfold TemplateManager.get_templates
    rw [find_key_eq_some hnd hmem]

/-- Witness for C7 on the default catalog: an unknown category and a present
one. -/
theorem get_templates_lookup_wit :
    TemplateManager.get_templates defaultTM "Nope" = [] ∧
    TemplateManager.get_templates defaultTM "Index Of" = ["site:{d} intitle:index.of"] :=
  ⟨(get_templates_lookup defaultTM "Nope").1 (by decide),
   (get_templates_lookup defaultTM "Index Of").2 ["site:{d} intitle:index.of"]
     (by decide) (by decide)⟩

/-- C4 (amended): `record_run` appends exactly one entry and an immediately
following `list_runs` ends with the recorded data; a fresh store lists
nothing.  In advaitzz.py the entry carries the clock value; in
advaitzz_combined.py the appended entry has no timestamp field. -/
theorem record_run_appends (st : HistoryFile Entry) (ts : Nat)
    (domains categories : List String) (note : String) (count : Nat)
    (l : List Combined.Entry) (extra : String) :
    HistoryDB.list_runs (HistoryDB.record_run st ts domains categories note count) =
      HistoryDB.list_runs st ++ [⟨ts, domains, categories, note, count⟩] ∧
    (HistoryDB.list_runs (HistoryDB.record_run st ts domains categories note count)).getLast?
      = some ⟨ts, domains, categories, note, count⟩ ∧
    HistoryDB.list_runs HistoryDB.fresh = [] ∧
    Combined.HistoryDB.record_run (HistoryFile.wellFormed l) ts domains categories extra count
      = Except.ok (HistoryFile.wellFormed (l ++ [⟨domains, categories, extra, count⟩])) ∧
    Combined.HistoryDB.list_runs Combined.HistoryDB.fresh = Except.ok [] := by
  refine ⟨rfl, ?_, rfl, rfl, rfl⟩
  exact List.getLast?_concat _

/-- Counterexample for C4 as stated: in the combined script the recorded
entry does not carry the current time — runs recorded at clock values 0 and
999 append identical entries. -/
theorem combined_record_run_no_timestamp :
    Combined.HistoryDB.record_run Combined.HistoryDB.fresh 0
      ["example.com"] ["Login Pages"] "" 3 =
    Combined.HistoryDB.record_run Combined.HistoryDB.fresh 999
      ["example.com"] ["Login Pages"] "" 3 :=
  rfl

/-- C5 (amended): advaitzz.py's `list_runs` returns all entries in append
order and an empty sequence for malformed or unreadable content; the
combined script's `list_runs` returns the entries for well-formed content
but propagates the parse error on malformed content. -/
theorem list_runs_lenient (l : List Entry) (lc : List Combined.Entry) :
    HistoryDB.list_runs (HistoryFile.wellFormed l) = l ∧
    HistoryDB.list_runs HistoryFile.malformed = [] ∧
    Combined.HistoryDB.list_runs (HistoryFile.wellFormed lc) = Except.ok lc :=
  ⟨rfl, rfl, rfl⟩

/-- Counterexample for C5 as stated: the combined script's `list_runs` raises
on a malformed backing store instead of returning an empty sequence. -/
theorem combined_list_runs_malformed_raises :
    Combined.HistoryDB.list_runs HistoryFile.malformed = Except.error "JSONDecodeError" ∧
    Combined.HistoryDB.list_runs HistoryFile.malformed ≠ Except.ok [] :=
  ⟨rfl, fun h => Except.noConfusion h⟩

/-- When every key of every row lies in the fieldnames, no row raises and the
rows are written in sequence order. -/
theorem writeRows_all_ok (fieldnames : List String) (results : List Record)
    (h : ∀ r ∈ results, ∀ kv ∈ r, fieldnames.contains kv.1 = true) :
    writeRows fieldnames results =
      (results.map (fun r => fieldnames.map (fun k => (dictGet r k).getD "")), none) := by
  induction results with
  | nil => rfl
  | cons r rs ih =>
    have hall : r.any (fun kv => !(fieldnames.contains kv.1)) = false := by
      rw [List.any_eq_false]
      intro kv hkv
      rw [h r (List.mem_cons_self r rs) kv hkv]
      simp
    have hr : dictToRow fieldnames r =
        Except.ok (fieldnames.map (fun k => (dictGet r k).getD "")) := by
      simp only [dictToRow, hall, Bool.false_eq_true, if_false]
    have ihr := ih (fun r2 hr2 kv hkv => h r2 (List.mem_cons_of_mem r hr2) kv hkv)
    simp [writeRows, hr, ihr]

/-- C8 (amended): the csv export writes the header row first — the key list
of the first record, or, for an empty record list, `["dork"]` in advaitzz.py
and the empty header in advaitzz_combined.py — followed by one data row per
record in sequence order, provided every record's keys appear in the
header. -/
theorem csv_export_shape (results : List Record)
    (h : ∀ r ∈ results, ∀ kv ∈ r, kv.1 ∈ csvHeader results) :
    csvExport results =
      (csvHeader results ::
        results.map (fun r => (csvHeader results).map (fun k => (dictGet r k).getD "")),
       none) ∧
    csvHeader [] = ["dork"] ∧
    (∀ r rs, results = r :: rs → csvHeader results = r.map Prod.fst) ∧
    (results ≠ [] → Combined.csvExport results = csvExport results) ∧
    Combined.csvHeader [] = [] := by
  have hc : ∀ r ∈ results, ∀ kv ∈ r, (csvHeader results).contains kv.1 = true := by
    intro r hr kv hkv
    simp [List.contains]
    exact h r hr kv hkv
  refine ⟨?_, rfl, ?_, ?_, rfl⟩
  · simp [csvExport, writeRows_all_ok (csvHeader results) results hc]
  · intro r rs hEq
    rw [hEq]
    rfl
  · intro hne
    match results with
    | [] => exact absurd rfl hne
    | r :: rs => rfl

/-- Witness for C8 at the spec's three-record example. -/
theorem csv_export_shape_wit :
    csvExport sampleRecords =
      (csvHeader sampleRecords ::
        sampleRecords.map (fun r =>
          (csvHeader sampleRecords).map (fun k => (dictGet r k).getD "")),
       none) :=
  (csv_export_shape sampleRecords (by decide)).1

/-- Counterexample for C8 as stated: exporting the empty record list through
the combined script's csv branch writes an empty header row, not the header
`["dork"]`. -/
theorem combined_csv_empty_header :
    Combined.export_results [] "out.csv" "csv" =
      Except.ok (some (ExportOutput.csvFile [[]] none)) ∧
    (([] : List String) ≠ ["dork"]) :=
  ⟨rfl, by decide⟩

/-- C2 (amended): for a destination whose extension is not among txt, csv,
json, xlsx, xls, advaitzz.py's `export_results` fails with
`UnsupportedFormatError` naming the offending extension and produces no
file, while the combined script's `export_results` returns without error and
silently produces no file for a format outside txt, csv, json, xlsx. -/
theorem export_unsupported_format (results : List Record) (filename fmt0 : String)
    (h : extOf filename ∉ (["txt", "csv", "json", "xlsx", "xls"] : List String)) :
    export_results results filename =
      Except.error (ExportError.unsupportedFormat (extOf filename)) ∧
    ExportError.message (ExportError.unsupportedFormat (extOf filename)) =
      "Unsupported export format: " ++ extOf filename ∧
    (pyLower fmt0 ∉ (["txt", "csv", "json", "xlsx"] : List String) →
      Combined.export_results results filename fmt0 = Except.ok none) := by
  simp only [List.mem_cons, List.not_mem_nil, or_false, not_or] at h
  obtain ⟨h1, h2, h3, h4, h5⟩ := h
  refine ⟨?_, rfl, ?_⟩
  · simp [export_results, h1, h2, h3, h4, h5]
  · intro hc
    simp only [List.mem_cons, List.not_mem_nil, or_false, not_or] at hc
    obtain ⟨g1, g2, g3, g4⟩ := hc
    simp [Combined.export_results, g1, g2, g3, g4]

/-- Witness for C2 at the spec's `report.pdf` example. -/
theorem export_unsupported_format_wit :
    export_results [] "report.pdf" = Except.error (ExportError.unsupportedFormat "pdf") ∧
    ExportError.message (ExportError.unsupportedFormat "pdf") =
      "Unsupported export format: pdf" ∧
    Combined.export_results [] "report.pdf" "pdf" = Except.ok none := by
  have H := export_unsupported_format [] "report.pdf" "pdf" (by decide)
  exact ⟨H.1, H.2.1, H.2.2 (by decide)⟩

/-- Counterexample for C2 as stated: the combined script's `export_results`
does not fail on the unsupported extension pdf — it returns normally having
written nothing. -/
theorem combined_export_unknown_format_no_error :
    Combined.export_results [] "report.pdf" "pdf" = Except.ok none :=
  rfl

/-- C10: the export format is the lowercased chunk after the last dot of the
destination name, so a dot-free name is its own extension — in particular
the destination named just `txt` is exported in txt format rather than
rejected. -/
theorem ext_no_dot (fn : String) (h : ('.' : Char) ∉ fn.data) :
    extOf fn = pyLower fn ∧
    export_results sampleRecords "txt" = Except.ok (ExportOutput.txtFile
      ("site:example.com inurl:login\n" ++
       "site:example.com intitle:login\nsite:example.com inurl:signin")) := by
  constructor
  · unfold extOf
    have hs : fn.data.splitOn '.' = [fn.data] := by
      unfold List.splitOn
      exact List.splitOnP_eq_single _ _ (fun x hx hbeq => by
        have hx2 : x = '.' := by simpa using hbeq
        exact h (hx2 ▸ hx))
    rw [hs]
    rfl
  · rfl

/-- Witness for C10 at the dot-free destination `txt`. -/
theorem ext_no_dot_wit :
    extOf "txt" = pyLower "txt" ∧
    export_results sampleRecords "txt" = Except.ok (ExportOutput.txtFile
      ("site:example.com inurl:login\n" ++
       "site:example.com intitle:login\nsite:example.com inurl:signin")) :=
  ext_no_dot "txt" (by decide)
